import Mathlib

/-!
Formal model of the ccusage status service (src/cloud-run/src/ccusage/api.py).

The Python module is embedded shallowly:
* machine floats become exact rationals (`ℚ`); `round(x, n)` becomes exact
  decimal rounding with ties to even, which is Python's rounding rule;
* Python exceptions become the `PyExc` inductive; `json.JSONDecodeError`
  is a subclass of `ValueError` in Python, so a JSON-decode failure is
  represented by the `valueError` constructor;
* the two external command invocations (`_run`) are inputs of the model:
  each is either a raised exception or a pair of exit code and combined,
  stripped output, exactly what `_run` returns;
* `json.loads` and `datetime.fromisoformat` are Python standard-library
  collaborators: they enter the model as function arguments (`loads`,
  `parseInstant`), and instants are rationals counting seconds since the
  Unix epoch (UTC);
* the two regular expressions `_LIMIT_HIT` and `_RESET_HINT` are embedded
  as executable nondeterministic matchers over character lists whose
  success is equivalent to `re.search` finding a match; `\s` and
  case-folding are modelled for the ASCII range, which covers every text
  these claims are evaluated on.
-/

namespace Ccusage

/-- Python exceptions that the embedded code can raise.  Each carries the
text `str(e)` would produce.  `valueError` also stands for its subclass
`json.JSONDecodeError`; `timeoutExpired` is `subprocess.TimeoutExpired`,
which is neither a `ValueError` nor a `RuntimeError`. -/
inductive PyExc where
  | valueError (m : String)
  | runtimeError (m : String)
  | keyError (m : String)
  | indexError (m : String)
  | typeError (m : String)
  | attributeError (m : String)
  | timeoutExpired (m : String)
  | osError (m : String)
deriving DecidableEq

/-- The text `str(e)` of an exception. -/
def PyExc.msg : PyExc → String
  | .valueError m => m
  | .runtimeError m => m
  | .keyError m => m
  | .indexError m => m
  | .typeError m => m
  | .attributeError m => m
  | .timeoutExpired m => m
  | .osError m => m

/-- Whether the exception is caught by an `except ValueError` clause. -/
def PyExc.isValueError : PyExc → Bool
  | .valueError _ => true
  | _ => false

/-- Whether the exception is caught by an `except RuntimeError` clause. -/
def PyExc.isRuntimeError : PyExc → Bool
  | .runtimeError _ => true
  | _ => false

/-- Parsed JSON values, the result type of `json.loads`. -/
inductive Json where
  | null
  | bool (b : Bool)
  | num (q : ℚ)
  | str (s : String)
  | arr (elems : List Json)
  | obj (fields : List (String × Json))

/-- Dictionary lookup on a parsed JSON object (keys are unique). -/
def lookupKV : List (String × Json) → String → Option Json
  | [], _ => none
  | (k, v) :: rest, key => if k = key then some v else lookupKV rest key

/-- One entry of `PLAN_CONFIG` (api.py lines 20-39). -/
structure PlanConfig where
  token_limit : ℤ
  cost_limit : ℚ
  message_limit : ℤ
  display_name : String
deriving DecidableEq

/-- The static plan table `PLAN_CONFIG` (api.py lines 20-39). -/
def PLAN_CONFIG (key : String) : Option PlanConfig :=
  if key = "Pro" then
    some { token_limit := 19000, cost_limit := 18, message_limit := 250, display_name := "Pro" }
  else if key = "Max5" then
    some { token_limit := 88000, cost_limit := 35, message_limit := 1000, display_name := "Max5" }
  else if key = "Max20" then
    some { token_limit := 220000, cost_limit := 140, message_limit := 2000, display_name := "Max20" }
  else none

/-- `_normalize_plan` (api.py lines 59-64), called by `get_ccusage_status`
with the plan already a string. -/
def normalize_plan (plan : String) : Except PyExc PlanConfig :=
  match PLAN_CONFIG plan with
  | some cfg => .ok cfg
  | none => .error (.valueError ("Unknown plan: " ++ plan))

/-- Python's `\s` character class (ASCII range). -/
def pySpace (c : Char) : Bool :=
  c = ' ' || c = '\t' || c = '\n' || c = '\r' || c = '\x0b' || c = '\x0c'

/-- Characters of a pattern literal. -/
def lc (s : String) : List Char := s.data

/-- Case-insensitive literal match: if `t` starts with `pat` (given in
lowercase) up to lowercasing, return the rest of `t`. -/
def startsWithCI : List Char → List Char → Option (List Char)
  | [], t => some t
  | _ :: _, [] => none
  | p :: ps, c :: cs => if c.toLower = p then startsWithCI ps cs else none

/-- All suffixes reachable from `t` by consuming `\s*`: the nondeterministic
states of the Kleene star over whitespace. -/
def starSpace : List Char → List (List Char)
  | [] => [[]]
  | c :: rest => (c :: rest) :: (if pySpace c then starSpace rest else [])

/-- States after the optional `[- ]?` of `_LIMIT_HIT`. -/
def optDash (t : List Char) : List (List Char) :=
  t :: (match t with
        | c :: rest => if c = '-' || c = ' ' then [rest] else []
        | [] => [])

/-- States after consuming `\s+` (one mandatory whitespace, then `\s*`). -/
def spacePlus : List Char → List (List Char)
  | c :: rest => if pySpace c then starSpace rest else []
  | [] => []

/-- The tail alternation `(?:reached|readched)` of `_LIMIT_HIT`. -/
def reachedTail (t : List Char) : Bool :=
  (startsWithCI (lc "reached") t).isSome || (startsWithCI (lc "readched") t).isSome

/-- A match of the first `_LIMIT_HIT` alternative
`5\s*[- ]?\s*hour\s+limit\s+(?:reached|readched)` starting at `t`. -/
def altA (t : List Char) : Bool :=
  match t with
  | c :: rest =>
    c = '5' &&
    ((starSpace rest).any fun t1 =>
      (optDash t1).any fun t2 =>
        (starSpace t2).any fun t3 =>
          match startsWithCI (lc "hour") t3 with
          | none => false
          | some t4 =>
            (spacePlus t4).any fun t5 =>
              match startsWithCI (lc "limit") t5 with
              | none => false
              | some t6 => (spacePlus t6).any reachedTail)
  | [] => false

/-- A match of the second `_LIMIT_HIT` alternative `rate\s*limit`
starting at `t`. -/
def altB (t : List Char) : Bool :=
  match startsWithCI (lc "rate") t with
  | none => false
  | some r => (starSpace r).any fun r2 => (startsWithCI (lc "limit") r2).isSome

/-- A match of `_LIMIT_HIT` starting at `t`. -/
def limitHitAt (t : List Char) : Bool := altA t || altB t

/-- `_LIMIT_HIT.search`: a match starting at some position. -/
def limitHitSearchL : List Char → Bool
  | [] => false
  | c :: rest => limitHitAt (c :: rest) || limitHitSearchL rest

/-- States after the optional preposition `(?:at|on|in)?` of `_RESET_HINT`
(the three branches exclude each other, their first letters differ). -/
def optPrep (t : List Char) : List (List Char) :=
  t :: ((startsWithCI (lc "at") t).toList ++ (startsWithCI (lc "on") t).toList ++
        (startsWithCI (lc "in") t).toList)

/-- States after the optional punctuation `[:\-]?` of `_RESET_HINT`. -/
def optPunct (t : List Char) : List (List Char) :=
  t :: (match t with
        | c :: rest => if c = ':' || c = '-' then [rest] else []
        | [] => [])

/-- The named group `(?P<when>[^\n\r]+)`: at least one character that is
neither a line feed nor a carriage return. -/
def goodWhen : List Char → Bool
  | [] => false
  | c :: _ => !(c = '\n' || c = '\r')

/-- A match of `\s*(?:at|on|in)?\s*[:\-]?\s*(?P<when>[^\n\r]+)`, the part
of `_RESET_HINT` after `reset[s]?`, starting at `t`. -/
def afterReset (t : List Char) : Bool :=
  (starSpace t).any fun t1 =>
    (optPrep t1).any fun t2 =>
      (starSpace t2).any fun t3 =>
        (optPunct t3).any fun t4 =>
          (starSpace t4).any goodWhen

/-- The characters of the literal `reset`. -/
def resetPat : List Char := lc "reset"

/-- A match of `_RESET_HINT` starting at `t`. -/
def resetHintAt (t : List Char) : Bool :=
  match startsWithCI resetPat t with
  | none => false
  | some r =>
    afterReset r ||
      (match r with
       | c :: cs => if c.toLower = 's' then afterReset cs else false
       | [] => false)

/-- `_RESET_HINT.search`: a match starting at some position. -/
def resetHintSearchL : List Char → Bool
  | [] => false
  | c :: rest => resetHintAt (c :: rest) || resetHintSearchL rest

/-- `_LIMIT_HIT.search(out)` on a string. -/
def limitHitSearch (s : String) : Bool := limitHitSearchL s.data

/-- `_RESET_HINT.search(out)` on a string. -/
def resetHintSearch (s : String) : Bool := resetHintSearchL s.data

/-- `str.strip()` on the character list. -/
def stripL (l : List Char) : List Char :=
  ((l.dropWhile pySpace).reverse.dropWhile pySpace).reverse

/-- `out.strip()`. -/
def pyStrip (s : String) : String := String.mk (stripL s.data)

/-- `"2" in s`: for a one-character needle, substring containment is
character membership. -/
def containsTwo (s : String) : Bool := s.data.contains '2'

/-- The dictionary `{"type": ..., "message": ...}` the limit prober builds. -/
structure LimitInfo where
  type : String
  message : String
deriving DecidableEq

/-- `_probe_limit_via_claude` (api.py lines 77-92) over the outcome of
`_run(list(test_cmd))`: an exception, or exit code and combined stripped
output. -/
def probe_limit_via_claude (runResult : Except PyExc (ℤ × String)) : LimitInfo :=
  match runResult with
  | .error e => { type := "error", message := e.msg }
  | .ok (_, out) =>
    if limitHitSearch out || resetHintSearch out then
      { type := "limit", message := out.take 500 }
    else if containsTwo (pyStrip out) = false then
      { type := "error", message := out.take 500 }
    else
      { type := "not_limited", message := pyStrip out }

/-- Python truthiness `bool(x)` of a parsed JSON value. -/
def pyTruthy : Json → Bool
  | .null => false
  | .bool b => b
  | .num q => decide (q ≠ 0)
  | .str s => decide (s ≠ "")
  | .arr xs => !xs.isEmpty
  | .obj kvs => !kvs.isEmpty

/-- Truthiness of `d.get(key)` with its `None` default. -/
def pyTruthyOpt : Option Json → Bool
  | none => false
  | some j => pyTruthy j

/-- Python `float(x)` on a parsed JSON value.  Numeric strings are not
modelled (no modelled execution feeds a string into `float`); a string
argument is represented by the `ValueError` that a non-numeric string
would raise. -/
def pyFloat : Json → Except PyExc ℚ
  | .num q => .ok q
  | .bool b => .ok (if b then 1 else 0)
  | .str _ => .error (.valueError "could not convert string to float")
  | .null => .error (.typeError "float() argument must be a string or a real number, not NoneType")
  | .arr _ => .error (.typeError "float() argument must be a string or a real number, not list")
  | .obj _ => .error (.typeError "float() argument must be a string or a real number, not dict")

/-- Truncation toward zero, the conversion `int()` applies to a float. -/
def ratTrunc (q : ℚ) : ℤ := if 0 ≤ q then ⌊q⌋ else ⌈q⌉

/-- Python `int(x)` on a parsed JSON value (numeric strings not modelled,
as for `pyFloat`). -/
def pyInt : Json → Except PyExc ℤ
  | .num q => .ok (ratTrunc q)
  | .bool b => .ok (if b then 1 else 0)
  | .str _ => .error (.valueError "invalid literal for int() with base 10")
  | .null => .error (.typeError "int() argument must be a string, a bytes-like object or a real number, not NoneType")
  | .arr _ => .error (.typeError "int() argument must be a string, a bytes-like object or a real number, not list")
  | .obj _ => .error (.typeError "int() argument must be a string, a bytes-like object or a real number, not dict")

/-- `x.get(key)`: dictionary lookup, `AttributeError` when `x` is not a
dictionary. -/
def jget (j : Json) (key : String) : Except PyExc (Option Json) :=
  match j with
  | .obj kvs => .ok (lookupKV kvs key)
  | _ => .error (.attributeError "object has no attribute get")

/-- `x[key]` with a string key: `KeyError` when the key is absent from a
dictionary, `TypeError` when `x` is not a dictionary. -/
def jgetItem (j : Json) (key : String) : Except PyExc Json :=
  match j with
  | .obj kvs =>
    match lookupKV kvs key with
    | some v => .ok v
    | none => .error (.keyError key)
  | .arr _ => .error (.typeError "list indices must be integers or slices, not str")
  | .str _ => .error (.typeError "string indices must be integers, not str")
  | _ => .error (.typeError "object is not subscriptable")

/-- `x[0]`: first element of a list (or character of a string),
`IndexError` when empty, `KeyError` for a JSON object (its keys are
strings, not the integer 0), `TypeError` otherwise. -/
def jindexZero (j : Json) : Except PyExc Json :=
  match j with
  | .arr [] => .error (.indexError "list index out of range")
  | .arr (x :: _) => .ok x
  | .str s => if s.isEmpty then .error (.indexError "string index out of range") else .ok (.str (s.take 1))
  | .obj _ => .error (.keyError "0")
  | .null => .error (.typeError "object is not subscriptable")
  | .bool _ => .error (.typeError "object is not subscriptable")
  | .num _ => .error (.typeError "object is not subscriptable")

/-- `data["blocks"][0]` (api.py line 118). -/
def getBlocksZero (data : Json) : Except PyExc Json :=
  match jgetItem data "blocks" with
  | .error e => .error e
  | .ok blocks => jindexZero blocks

/-- The string the `endTime` value must be before `_utc_from_iso8601`
can call `.replace` on it (`AttributeError` otherwise). -/
def asStr : Json → Except PyExc String
  | .str s => .ok s
  | _ => .error (.attributeError "object has no attribute replace")

/-- The values `get_ccusage_status` extracts from the active block
(api.py lines 121-126, 134, 140-145), with the instant `reset_at` already
obtained from `parseInstant` and `cost_rate` already divided by 60. -/
structure BlockVals where
  active : Bool
  cost : ℚ
  tokensUsedRaw : ℤ
  msgs : ℤ
  models : Json
  resetAt : ℚ
  burnRate : ℚ
  costRate : ℚ

/-- The extraction steps of `get_ccusage_status` in source order:
lines 121-126 (`.get` with defaults and coercions), line 134
(`block["endTime"]` and its parse) and lines 140-145 (burn rates).
`parseInstant` stands for `datetime.fromisoformat` after the
`"Z" → "+00:00"` replacement, returning seconds since the Unix epoch. -/
def extractVals (block : Json) (parseInstant : String → Except PyExc ℚ) :
    Except PyExc BlockVals := do
  let a ← jget block "isActive"
  let active := pyTruthy (a.getD (.bool false))
  let c ← jget block "costUSD"
  let cost ← pyFloat (c.getD (.num 0))
  let t ← jget block "totalTokens"
  let tokensUsedRaw ← pyInt (t.getD (.num 0))
  let en ← jget block "entries"
  let msgs ← pyInt (en.getD (.num 0))
  let mo ← jget block "models"
  let models := mo.getD (.arr [])
  let et ← jgetItem block "endTime"
  let etStr ← asStr et
  let resetAt ← parseInstant etStr
  let b ← jget block "burnRate"
  let burn := b.getD (.obj [])
  let br ← jget burn "tokensPerMinuteForIndicator"
  let burnRate ← pyFloat (br.getD (.num 0))
  let cph ← jget burn "costPerHour"
  let costRate ←
    if pyTruthyOpt cph then (pyFloat (cph.getD (.num 0))).map (fun x => x / 60)
    else pure (0 : ℚ)
  pure { active := active, cost := cost, tokensUsedRaw := tokensUsedRaw, msgs := msgs,
         models := models, resetAt := resetAt, burnRate := burnRate, costRate := costRate }

/-- Round to the nearest integer, ties to even: the rule of Python's
built-in `round`. -/
def roundHalfEven (q : ℚ) : ℤ :=
  if q - ⌊q⌋ < 1 / 2 then ⌊q⌋
  else if 1 / 2 < q - ⌊q⌋ then ⌊q⌋ + 1
  else if ⌊q⌋ % 2 = 0 then ⌊q⌋ else ⌊q⌋ + 1

/-- `round(x, 1)`. -/
def round1 (q : ℚ) : ℚ := (roundHalfEven (q * 10) : ℚ) / 10

/-- `round(x, 4)`. -/
def round4 (q : ℚ) : ℚ := (roundHalfEven (q * 10000) : ℚ) / 10000

/-- Gregorian date from a day count relative to 1970-01-01
(the standard civil-from-days algorithm): year, month, day. -/
def civilFromDays (z0 : ℤ) : ℤ × ℕ × ℕ :=
  let z := z0 + 719468
  let era := z.fdiv 146097
  let doe := z - era * 146097
  let yoe := (doe - doe / 1460 + doe / 36524 - doe / 146096) / 365
  let y := yoe + era * 400
  let doy := doe - (365 * yoe + yoe / 4 - yoe / 100)
  let mp := (5 * doy + 2) / 153
  let d := doy - (153 * mp + 2) / 5 + 1
  let m := if mp < 10 then mp + 3 else mp - 9
  (if m ≤ 2 then y + 1 else y, m.toNat, d.toNat)

/-- Left-pad a number to two digits. -/
def pad2 (n : ℕ) : String := if n < 10 then "0" ++ toString n else toString n

/-- Left-pad a year to four digits, as `%Y` does. -/
def pad4 (n : ℕ) : String :=
  if n < 10 then "000" ++ toString n
  else if n < 100 then "00" ++ toString n
  else if n < 1000 then "0" ++ toString n
  else toString n

/-- `_fmt_utc` (api.py lines 72-74): `strftime("%Y-%m-%d %H:%M UTC")` of an
instant given in seconds since the Unix epoch (seconds below one minute are
simply not printed). -/
def fmt_utc (t : ℚ) : String :=
  let s : ℤ := ⌊t⌋
  let days := s.fdiv 86400
  let secOfDay := (s.emod 86400).toNat
  let ymd := civilFromDays days
  pad4 ymd.1.toNat ++ "-" ++ pad2 ymd.2.1 ++ "-" ++ pad2 ymd.2.2 ++ " " ++
    pad2 (secOfDay / 3600) ++ ":" ++ pad2 (secOfDay % 3600 / 60) ++ " UTC"

/-- The `cost` group of the response. -/
structure CostGroup where
  used : ℚ
  limit : ℚ
  percent : ℚ

/-- The `tokens` group of the response (`used` is in thousands). -/
structure TokenGroup where
  used : ℚ
  limit : ℤ
  percent : ℚ

/-- The `messages` group of the response. -/
structure MsgGroup where
  used : ℤ
  limit : ℤ
  percent : ℚ

/-- The `time_to_reset` group of the response. -/
structure TimeToReset where
  remaining_minutes : ℤ
  reset_at : String

/-- The `predictions` group of the response. -/
structure Predictions where
  tokens_will_run_out : String
  limit_resets_at : String

/-- The dictionary `get_ccusage_status` returns (api.py lines 155-185). -/
structure StatusReport where
  limit : LimitInfo
  plan : String
  active : Bool
  models : Json
  cost : CostGroup
  tokens : TokenGroup
  messages : MsgGroup
  time_to_reset : TimeToReset
  burn_rate : ℚ
  cost_rate : ℚ
  predictions : Predictions

/-- The pure tail of `get_ccusage_status` (api.py lines 124, 128-131,
136-137, 147-153 and 155-185): percentages, reset times, the exhaustion
projection and the assembled response, over the extracted values,
the plan configuration, the probe classification and the current time
`now` (seconds since the Unix epoch). -/
def assembleReport (cfg : PlanConfig) (limit_info : LimitInfo) (v : BlockVals)
    (now : ℚ) : StatusReport :=
  let tokens_used : ℚ := (v.tokensUsedRaw : ℚ) / 1000
  let cost_pct : ℚ := if cfg.cost_limit ≠ 0 then v.cost / cfg.cost_limit * 100 else 0
  let token_pct : ℚ := if cfg.token_limit ≠ 0 then tokens_used / (cfg.token_limit : ℚ) * 100 else 0
  let msg_pct : ℚ := if cfg.message_limit ≠ 0 then (v.msgs : ℚ) / (cfg.message_limit : ℚ) * 100 else 0
  let remaining_minutes : ℤ := max 0 ⌊(v.resetAt - now) / 60⌋
  let reset_at_str := fmt_utc v.resetAt
  let remain_tokens_raw : ℚ :=
    if cfg.token_limit ≠ 0 then max 0 ((cfg.token_limit : ℚ) * 1000 - (v.tokensUsedRaw : ℚ)) else 0
  let tokens_will_run_out :=
    if 0 < v.burnRate then fmt_utc (now + remain_tokens_raw / v.burnRate * 60) else "N/A"
  { limit := limit_info
    plan := cfg.display_name
    active := v.active
    models := v.models
    cost := { used := v.cost, limit := cfg.cost_limit, percent := round1 cost_pct }
    tokens := { used := tokens_used, limit := cfg.token_limit, percent := round1 token_pct }
    messages := { used := v.msgs, limit := cfg.message_limit, percent := round1 msg_pct }
    time_to_reset := { remaining_minutes := remaining_minutes, reset_at := reset_at_str }
    burn_rate := v.burnRate
    cost_rate := round4 v.costRate
    predictions := { tokens_will_run_out := tokens_will_run_out, limit_resets_at := reset_at_str } }

/-- `get_ccusage_status` (api.py lines 95-185).  `probeRun` and `usageRun`
are the outcomes of the two `_run` invocations; `loads` is `json.loads`
(its failure, `json.JSONDecodeError`, is a `ValueError` carrying the decode
message); `parseInstant` is the timestamp parse of `_utc_from_iso8601`. -/
def get_ccusage_status (plan : String)
    (probeRun usageRun : Except PyExc (ℤ × String))
    (loads : String → Except String Json)
    (parseInstant : String → Except PyExc ℚ)
    (now : ℚ) : Except PyExc StatusReport :=
  match normalize_plan plan with
  | .error e => .error e
  | .ok cfg =>
    let limit_info := probe_limit_via_claude probeRun
    match usageRun with
    | .error e => .error e
    | .ok (code, raw) =>
      if code ≠ 0 then .error (.runtimeError ("ccusage failed: " ++ raw.take 200))
      else
        match loads raw with
        | .error m => .error (.valueError m)
        | .ok data =>
          match getBlocksZero data with
          | .error e => .error e
          | .ok block =>
            match extractVals block parseInstant with
            | .error e => .error e
            | .ok v => .ok (assembleReport cfg limit_info v now)

/-- What the `/status` route hands back to the HTTP layer: a 200 with the
report, a 400 or 502 with a detail message, or an exception neither
`except` clause catches, which escapes the handler. -/
inductive HttpResult where
  | ok (report : StatusReport)
  | clientError (detail : String)
  | upstreamError (detail : String)
  | unhandled (e : PyExc)

/-- The HTTP status code of each outcome (an uncaught exception surfaces
as the server's 500, never as a handled 400 or 502). -/
def HttpResult.code : HttpResult → ℕ
  | .ok _ => 200
  | .clientError _ => 400
  | .upstreamError _ => 502
  | .unhandled _ => 500

/-- Whether the request produced a 200 with a body. -/
def HttpResult.isSuccess : HttpResult → Bool
  | .ok _ => true
  | _ => false

/-- The `limit` field of a 200 body. -/
def HttpResult.limitField : HttpResult → Option LimitInfo
  | .ok r => some r.limit
  | _ => none

/-- The `/status` endpoint (api.py lines 209-218): `ValueError` becomes a
400, `RuntimeError` a 502, anything else propagates. -/
def statusEndpoint (plan : String)
    (probeRun usageRun : Except PyExc (ℤ × String))
    (loads : String → Except String Json)
    (parseInstant : String → Except PyExc ℚ)
    (now : ℚ) : HttpResult :=
  match get_ccusage_status plan probeRun usageRun loads parseInstant now with
  | .ok r => .ok r
  | .error e =>
    if e.isValueError then .clientError e.msg
    else if e.isRuntimeError then .upstreamError e.msg
    else .unhandled e

/-- A concrete usage block in the shape of the repository's test fixture
(test.py, `_mock_ccusage_data`), with integral numeric values. -/
def mockBlock : Json := Json.obj [
  ("isActive", Json.bool true),
  ("costUSD", Json.num 6),
  ("totalTokens", Json.num 15827),
  ("entries", Json.num 180),
  ("endTime", Json.str "2025-08-23T14:00:00.000Z"),
  ("burnRate", Json.obj [("tokensPerMinuteForIndicator", Json.num 120),
                         ("costPerHour", Json.num 3)])]

/-- The whole usage report around `mockBlock`. -/
def mockData : Json := Json.obj [("blocks", Json.arr [mockBlock])]

/-- A `json.loads` oracle that decodes every text to `mockData`. -/
def mockLoads : String → Except String Json := fun _ => Except.ok mockData

/-- A timestamp-parse oracle returning the block's `endTime` instant,
2025-08-23T14:00:00Z, as seconds since the Unix epoch. -/
def mockParse : String → Except PyExc ℚ := fun _ => Except.ok 1755957600

/-- The values the extraction steps produce on `mockBlock`. -/
def mockVals : BlockVals :=
  { active := true, cost := 6, tokensUsedRaw := 15827, msgs := 180,
    models := Json.arr [], resetAt := 1755957600, burnRate := 120, costRate := 3 / 60 }

/-- The Pro entry of the plan table. -/
def proConfig : PlanConfig :=
  { token_limit := 19000, cost_limit := 18, message_limit := 250, display_name := "Pro" }

/-- The report the pipeline assembles from `mockBlock` under the Pro plan
with probe output "2", at 2025-08-23T10:00:00Z. -/
def mockReport : StatusReport :=
  assembleReport proConfig { type := "not_limited", message := pyStrip "2" } mockVals 1755943200

/-- A 600-character failure description. -/
def longDescr : String := String.mk (List.replicate 600 'x')

/-- A `json.loads` oracle for text that is not valid JSON: it raises
`json.JSONDecodeError` with the message CPython produces. -/
def badLoads : String → Except String Json :=
  fun _ => Except.error "Expecting value: line 1 column 1 (char 0)"

/-- Rounding a zero percentage leaves it exactly zero. -/
lemma round1_zero : round1 0 = 0 := by norm_num [round1, roundHalfEven]

/-- Claim C2: in the assembled report, each of the three percent fields is
exactly 0.0 when the corresponding limit is 0, and otherwise is
round(used/limit*100, 1), with token usage taken in thousands
(totalTokens/1000) against the plan's token limit — for every plan
configuration, extracted block and current time. -/
theorem c2_percent_fields (cfg : PlanConfig) (li : LimitInfo) (v : BlockVals) (now : ℚ) :
    (assembleReport cfg li v now).cost.percent =
      (if cfg.cost_limit = 0 then 0 else round1 (v.cost / cfg.cost_limit * 100)) ∧
    (assembleReport cfg li v now).tokens.percent =
      (if cfg.token_limit = 0 then 0
       else round1 ((v.tokensUsedRaw : ℚ) / 1000 / (cfg.token_limit : ℚ) * 100)) ∧
    (assembleReport cfg li v now).messages.percent =
      (if cfg.message_limit = 0 then 0
       else round1 ((v.msgs : ℚ) / (cfg.message_limit : ℚ) * 100)) := by
  refine ⟨?_, ?_, ?_⟩ <;> simp only [assembleReport]
  · by_cases h : cfg.cost_limit = 0 <;> simp [h, round1_zero]
  · by_cases h : cfg.token_limit = 0 <;> simp [h, round1_zero]
  · by_cases h : cfg.message_limit = 0 <;> simp [h, round1_zero]

/-- Claim C4 counterexample: an execution-level failure whose description
is 600 characters long is returned by the limit prober with all 600
characters — the message is not truncated to 500. -/
theorem c4_counterexample :
    (probe_limit_via_claude (Except.error (PyExc.osError longDescr))).message.length = 600 ∧
    ¬ (probe_limit_via_claude (Except.error (PyExc.osError longDescr))).message.length ≤ 500 := by
  have h : (probe_limit_via_claude (Except.error (PyExc.osError longDescr))).message = longDescr := rfl
  have hlen : longDescr.length = 600 := by
    rw [longDescr, String.length_mk, List.length_replicate]
  rw [h, hlen]
  omega

/-- Claim C4 as amended: when invoking the probe command raises any
execution-level failure, the limit prober returns an error result whose
message is the full failure description str(e), with no truncation. -/
theorem c4_amended_full_message (e : PyExc) :
    probe_limit_via_claude (Except.error e) = { type := "error", message := e.msg } := rfl

/-- Claim C7: for every reset instant and current time, the reported
remaining minutes equal max(0, floor((resetAt − now) in seconds / 60)),
and are never negative, even when the reset instant is in the past. -/
theorem c7_remaining_minutes (cfg : PlanConfig) (li : LimitInfo) (v : BlockVals) (now : ℚ) :
    (assembleReport cfg li v now).time_to_reset.remaining_minutes =
      max 0 ⌊(v.resetAt - now) / 60⌋ ∧
    0 ≤ (assembleReport cfg li v now).time_to_reset.remaining_minutes := by
  exact ⟨rfl, le_max_left 0 _⟩

/-- Claim C3: for every plan of the table (all of which have a nonzero
token limit), every extracted block and every current time, if the burn
rate is positive the projected exhaustion time is now plus
max(0, tokenLimit*1000 − totalTokens)/burnRate minutes rendered in the
fixed UTC format, and if the burn rate is 0 (the value an absent field
defaults to) the projection is the "N/A" sentinel, never a computed time. -/
theorem c3_exhaustion_projection (plan : String) (cfg : PlanConfig)
    (hplan : PLAN_CONFIG plan = some cfg) (li : LimitInfo) (v : BlockVals) (now : ℚ) :
    (0 < v.burnRate →
      (assembleReport cfg li v now).predictions.tokens_will_run_out =
        fmt_utc (now + max 0 ((cfg.token_limit : ℚ) * 1000 - (v.tokensUsedRaw : ℚ)) / v.burnRate * 60)) ∧
    (v.burnRate = 0 →
      (assembleReport cfg li v now).predictions.tokens_will_run_out = "N/A") := by
  have htl : cfg.token_limit ≠ 0 := by
    unfold PLAN_CONFIG at hplan
    split at hplan
    · injection hplan with h2
      rw [← h2]
      decide
    · split at hplan
      · injection hplan with h2
        rw [← h2]
        decide
      · split at hplan
        · injection hplan with h2
          rw [← h2]
          decide
        · exact Option.noConfusion hplan
  constructor
  · intro h
    simp [assembleReport, h, htl]
  · intro h
    simp [assembleReport, h]

/-- Claim C3 witness: with the Pro plan, a burn rate of 1 token per
minute and no tokens used, the hypotheses hold and the projection is the
formula's instant. -/
theorem c3_witness :
    (0 : ℚ) < 1 ∧
    (assembleReport { token_limit := 19000, cost_limit := 18, message_limit := 250, display_name := "Pro" }
        { type := "not_limited", message := "2" }
        { active := true, cost := 0, tokensUsedRaw := 0, msgs := 0, models := Json.arr [],
          resetAt := 0, burnRate := 1, costRate := 0 } 0).predictions.tokens_will_run_out =
      fmt_utc (0 + max 0 (((19000 : ℤ) : ℚ) * 1000 - ((0 : ℤ) : ℚ)) / 1 * 60) := by
  constructor
  · norm_num
  · exact (c3_exhaustion_projection "Pro" _ rfl _ _ _).1 (by norm_num)

/-- Claim C5: when the probe output matches neither limit pattern, the
classification is the not-limited result carrying the full trimmed output
exactly when the trimmed output contains the character 2; otherwise it is
the error result carrying the first 500 characters of the output. -/
theorem c5_no_pattern_classification (code : ℤ) (out : String)
    (h1 : limitHitSearch out = false) (h2 : resetHintSearch out = false) :
    (probe_limit_via_claude (.ok (code, out)) =
        { type := "not_limited", message := pyStrip out } ↔
      containsTwo (pyStrip out) = true) ∧
    (containsTwo (pyStrip out) = false →
      probe_limit_via_claude (.ok (code, out)) =
        { type := "error", message := out.take 500 }) := by
  constructor
  · cases hc : containsTwo (pyStrip out) with
    | true => simp [probe_limit_via_claude, h1, h2, hc]
    | false => simp [probe_limit_via_claude, h1, h2, hc]
  · intro hc
    simp [probe_limit_via_claude, h1, h2, hc]

/-- Claim C5 witness: the output "2" matches neither pattern, its trimmed
form contains 2, and the prober classifies it as not limited. -/
theorem c5_witness :
    limitHitSearch "2" = false ∧ resetHintSearch "2" = false ∧
    probe_limit_via_claude (.ok ((0 : ℤ), "2")) =
      { type := "not_limited", message := pyStrip "2" } := by
  refine ⟨rfl, rfl, ?_⟩
  exact ((c5_no_pattern_classification 0 "2" rfl rfl).1).mpr rfl

/-- Claim C6: whenever the output matches the limit-hit pattern (a
"5 hour limit reached" style phrase, the misspelling included, or
"rate limit", any letter case), the prober classifies it as a limit hit
with the first 500 characters of the output as message, regardless of any
other content — in particular even when the output also contains 2. -/
theorem c6_limit_pattern_wins (code : ℤ) (out : String)
    (h : limitHitSearch out = true) :
    probe_limit_via_claude (.ok (code, out)) =
      { type := "limit", message := out.take 500 } := by
  simp [probe_limit_via_claude, h]

/-- Claim C6 witness: an output matching "rate limit" that also contains
the character 2 is still classified as a limit hit. -/
theorem c6_witness :
    limitHitSearch "RATE LIMIT hit, answer 2" = true ∧
    containsTwo "RATE LIMIT hit, answer 2" = true ∧
    probe_limit_via_claude (.ok ((0 : ℤ), "RATE LIMIT hit, answer 2")) =
      { type := "limit", message := ("RATE LIMIT hit, answer 2").take 500 } := by
  refine ⟨rfl, rfl, ?_⟩
  exact c6_limit_pattern_wins 0 "RATE LIMIT hit, answer 2" rfl

/-- After `reset[s]?`, the all-empty parse of the optional parts matches
whenever the very next character is neither a line feed nor a carriage
return. -/
lemma afterReset_head (c : Char) (post : List Char)
    (h : (c = '\n' || c = '\r') = false) : afterReset (c :: post) = true := by
  have hg : goodWhen (c :: post) = true := by simp [goodWhen, h]
  unfold afterReset
  rw [List.any_eq_true]
  refine ⟨c :: post, by simp [starSpace], ?_⟩
  rw [List.any_eq_true]
  refine ⟨c :: post, by simp [optPrep], ?_⟩
  rw [List.any_eq_true]
  refine ⟨c :: post, by simp [starSpace], ?_⟩
  rw [List.any_eq_true]
  refine ⟨c :: post, by simp [optPunct], ?_⟩
  rw [List.any_eq_true]
  exact ⟨c :: post, by simp [starSpace], hg⟩

/-- A reset-hint match starts at the head of `reset` followed by any
character other than a line feed or carriage return. -/
lemma resetHintAt_append (c : Char) (post : List Char)
    (h : (c = '\n' || c = '\r') = false) :
    resetHintAt (resetPat ++ c :: post) = true := by
  have hs : startsWithCI resetPat (resetPat ++ c :: post) = some (c :: post) := rfl
  unfold resetHintAt
  rw [hs]
  simp [afterReset_head c post h]

/-- The reset-hint search succeeds on any string with a suffix on which a
match starts. -/
lemma resetHintSearchL_append (pre rest : List Char) (h : resetHintAt rest = true) :
    resetHintSearchL (pre ++ rest) = true := by
  induction pre with
  | nil =>
    cases rest with
    | nil => exact absurd h (by decide)
    | cons c cs => simp [resetHintSearchL, h]
  | cons p ps ih => simp [resetHintSearchL, ih]

/-- Claim C9: any probe output containing the word reset followed by at
least one further character on the same line — no at, on or in required —
is classified as a limit hit (the reset-hint preposition is optional), with
the first 500 characters of the output as message. -/
theorem c9_reset_hint_is_broad (pre post : List Char) (c : Char) (code : ℤ)
    (h : (c = '\n' || c = '\r') = false) :
    probe_limit_via_claude (.ok (code, String.mk (pre ++ resetPat ++ c :: post))) =
      { type := "limit", message := (String.mk (pre ++ resetPat ++ c :: post)).take 500 } := by
  have hr : resetHintSearch (String.mk (pre ++ resetPat ++ c :: post)) = true := by
    have h1 := resetHintAt_append c post h
    have h2 := resetHintSearchL_append pre (resetPat ++ c :: post) h1
    rw [← List.append_assoc] at h2
    exact h2
  have hcond : (limitHitSearch (String.mk (pre ++ resetPat ++ c :: post)) ||
      resetHintSearch (String.mk (pre ++ resetPat ++ c :: post))) = true := by
    rw [hr, Bool.or_true]
  simp only [probe_limit_via_claude, hcond, if_true]

/-- Claim C9 witness: the output "limit will resetx soon" — the word reset
followed by the letter x, with no preposition — is classified as a limit
hit. -/
theorem c9_witness :
    (('x' = '\n' || 'x' = '\r') = false) ∧
    probe_limit_via_claude (.ok ((0 : ℤ),
        String.mk (lc "limit will " ++ resetPat ++ 'x' :: lc " soon"))) =
      { type := "limit",
        message := (String.mk (lc "limit will " ++ resetPat ++ 'x' :: lc " soon")).take 500 } := by
  refine ⟨rfl, ?_⟩
  exact c9_reset_hint_is_broad (lc "limit will ") (lc " soon") 'x' 0 rfl

/-- Decomposing a successful run: when `get_ccusage_status` returns a
report for one probe outcome, the report is the assembly of some plan
configuration and extracted values with that probe's classification, and
every other probe outcome yields the same report with only the limit
field replaced — the probe never decides success. -/
lemma get_status_ok_decompose {plan : String} {pr u : Except PyExc (ℤ × String)}
    {loads : String → Except String Json} {pI : String → Except PyExc ℚ}
    {now : ℚ} {r : StatusReport}
    (h : get_ccusage_status plan pr u loads pI now = Except.ok r) :
    ∃ cfg v, r = assembleReport cfg (probe_limit_via_claude pr) v now ∧
      ∀ pr2, get_ccusage_status plan pr2 u loads pI now =
        Except.ok (assembleReport cfg (probe_limit_via_claude pr2) v now) := by
  cases hn : normalize_plan plan with
  | error e => simp [get_ccusage_status, hn] at h
  | ok cfg =>
  cases u with
  | error e => simp [get_ccusage_status, hn] at h
  | ok p =>
  obtain ⟨code, raw⟩ := p
  by_cases hc : code ≠ 0
  · simp [get_ccusage_status, hn, if_pos hc] at h
  · cases hl : loads raw with
    | error m => simp [get_ccusage_status, hn, if_neg hc, hl] at h
    | ok data =>
    cases hb : getBlocksZero data with
    | error e => simp [get_ccusage_status, hn, if_neg hc, hl, hb] at h
    | ok block =>
    cases he : extractVals block pI with
    | error e => simp [get_ccusage_status, hn, if_neg hc, hl, hb, he] at h
    | ok v =>
      simp only [get_ccusage_status, hn, if_neg hc, hl, hb, he, Except.ok.injEq] at h
      refine ⟨cfg, v, h.symm, fun pr2 => ?_⟩
      simp only [get_ccusage_status, hn, if_neg hc, hl, hb, he]

/-- Claim C10: on every input on which `get_ccusage_status` succeeds, the
predicted reset string equals the time-to-reset string character for
character — both are the one formatting of the parsed `endTime` instant. -/
theorem c10_reset_strings_agree (plan : String) (pr u : Except PyExc (ℤ × String))
    (loads : String → Except String Json) (pI : String → Except PyExc ℚ)
    (now : ℚ) (r : StatusReport)
    (h : get_ccusage_status plan pr u loads pI now = Except.ok r) :
    r.predictions.limit_resets_at = r.time_to_reset.reset_at := by
  obtain ⟨cfg, v, hr, -⟩ := get_status_ok_decompose h
  subst hr
  rfl

/-- Claim C10 witness: a full successful run on `mockBlock` under the Pro
plan, whose report carries the same reset string in both places. -/
theorem c10_witness :
    get_ccusage_status "Pro" (.ok ((0 : ℤ), "2")) (.ok ((0 : ℤ), "raw"))
        mockLoads mockParse 1755943200 = Except.ok mockReport ∧
    mockReport.predictions.limit_resets_at = mockReport.time_to_reset.reset_at := by
  refine ⟨rfl, ?_⟩
  exact c10_reset_strings_agree "Pro" (.ok ((0 : ℤ), "2")) (.ok ((0 : ℤ), "raw"))
    mockLoads mockParse 1755943200 mockReport rfl

/-- Claim C8: once the usage pipeline succeeds for one probe outcome, it
succeeds for every probe outcome — the probe never raises out of
`get_ccusage_status` — and the endpoint answers 200 with the probe's
classification in the limit field; a probe that raised is surfaced inside
the 200 body as limit type "error". -/
theorem c8_probe_never_fatal (plan : String) (u : Except PyExc (ℤ × String))
    (loads : String → Except String Json) (pI : String → Except PyExc ℚ)
    (now : ℚ) (pr1 pr2 : Except PyExc (ℤ × String))
    (h : (statusEndpoint plan pr1 u loads pI now).isSuccess = true) :
    (statusEndpoint plan pr2 u loads pI now).code = 200 ∧
    (statusEndpoint plan pr2 u loads pI now).limitField =
      some (probe_limit_via_claude pr2) ∧
    ∀ e, pr2 = Except.error e → (probe_limit_via_claude pr2).type = "error" := by
  have h1 : ∃ r, get_ccusage_status plan pr1 u loads pI now = Except.ok r := by
    cases hg : get_ccusage_status plan pr1 u loads pI now with
    | ok r => exact ⟨r, rfl⟩
    | error e =>
      exfalso
      unfold statusEndpoint at h
      rw [hg] at h
      by_cases h2 : e.isValueError = true
      · simp [h2, HttpResult.isSuccess] at h
      · by_cases h3 : e.isRuntimeError = true
        · simp [h2, h3, HttpResult.isSuccess] at h
        · simp [h2, h3, HttpResult.isSuccess] at h
  obtain ⟨r, hg⟩ := h1
  obtain ⟨cfg, v, -, hall⟩ := get_status_ok_decompose hg
  have h2 := hall pr2
  refine ⟨?_, ?_, ?_⟩
  · simp [statusEndpoint, h2, HttpResult.code]
  · simp [statusEndpoint, h2, HttpResult.limitField, assembleReport]
  · rintro e rfl
    rfl

/-- Claim C8 witness: a run that succeeds with probe output "2" still
answers 200 when the probe command instead times out, and the timeout is
surfaced as limit type "error". -/
theorem c8_witness :
    (statusEndpoint "Pro" (.ok ((0 : ℤ), "2")) (.ok ((0 : ℤ), "raw"))
        mockLoads mockParse 1755943200).isSuccess = true ∧
    (statusEndpoint "Pro" (Except.error (PyExc.timeoutExpired "Command timed out"))
        (.ok ((0 : ℤ), "raw")) mockLoads mockParse 1755943200).code = 200 ∧
    (statusEndpoint "Pro" (Except.error (PyExc.timeoutExpired "Command timed out"))
        (.ok ((0 : ℤ), "raw")) mockLoads mockParse 1755943200).limitField =
      some (probe_limit_via_claude (Except.error (PyExc.timeoutExpired "Command timed out"))) ∧
    (probe_limit_via_claude (Except.error (PyExc.timeoutExpired "Command timed out"))).type =
      "error" := by
  have H := c8_probe_never_fatal "Pro" (.ok ((0 : ℤ), "raw")) mockLoads mockParse 1755943200
    (.ok ((0 : ℤ), "2")) (Except.error (PyExc.timeoutExpired "Command timed out")) rfl
  exact ⟨rfl, H.1, H.2.1, H.2.2 _ rfl⟩

/-- Claim C1 counterexample: with the usage command exiting 0 but printing
text that is not valid JSON, the decode failure is a `ValueError`
(`json.JSONDecodeError` subclasses it), so the endpoint answers 400, not
the claimed 502. -/
theorem c1_counterexample :
    statusEndpoint "Pro" (.ok ((0 : ℤ), "2")) (.ok ((0 : ℤ), "not json"))
        badLoads (fun _ => Except.ok 0) 0 =
      HttpResult.clientError "Expecting value: line 1 column 1 (char 0)" ∧
    (statusEndpoint "Pro" (.ok ((0 : ℤ), "2")) (.ok ((0 : ℤ), "not json"))
        badLoads (fun _ => Except.ok 0) 0).code ≠ 502 := by
  exact ⟨rfl, by decide⟩

/-- Claim C1 as amended: when the usage command exits 0 and its output is
not valid JSON, the decode error is a `ValueError` the endpoint's handler
turns into HTTP 400 with the decode message as detail; when the output
parses but has no "blocks" key, or its "blocks" list is empty, the raised
`KeyError` or `IndexError` is caught by neither handler and escapes the
endpoint — in none of these cases is the response a 502. -/
theorem c1_amended_malformed_handling (plan : String) (cfg : PlanConfig)
    (hplan : PLAN_CONFIG plan = some cfg)
    (pr : Except PyExc (ℤ × String))
    (loads : String → Except String Json) (pI : String → Except PyExc ℚ) (now : ℚ)
    (raw1 raw2 raw3 m : String) (kvs2 kvs3 : List (String × Json))
    (h1 : loads raw1 = Except.error m)
    (h2 : loads raw2 = Except.ok (Json.obj kvs2)) (hk2 : lookupKV kvs2 "blocks" = none)
    (h3 : loads raw3 = Except.ok (Json.obj kvs3))
    (hk3 : lookupKV kvs3 "blocks" = some (Json.arr [])) :
    statusEndpoint plan pr (.ok (0, raw1)) loads pI now = HttpResult.clientError m ∧
    (statusEndpoint plan pr (.ok (0, raw1)) loads pI now).code = 400 ∧
    statusEndpoint plan pr (.ok (0, raw2)) loads pI now =
      HttpResult.unhandled (PyExc.keyError "blocks") ∧
    statusEndpoint plan pr (.ok (0, raw3)) loads pI now =
      HttpResult.unhandled (PyExc.indexError "list index out of range") := by
  have hn : normalize_plan plan = Except.ok cfg := by simp [normalize_plan, hplan]
  refine ⟨?_, ?_, ?_, ?_⟩ <;>
    simp [statusEndpoint, get_ccusage_status, hn, h1, h2, h3, getBlocksZero, jgetItem,
      jindexZero, hk2, hk3, PyExc.isValueError, PyExc.isRuntimeError, PyExc.msg,
      HttpResult.code]

/-- A `json.loads` oracle for the amended-claim witness: "bad" is not
valid JSON, "noblocks" decodes to an object without a blocks key, and any
other text decodes to an object whose blocks list is empty. -/
def wLoads : String → Except String Json := fun r =>
  if r = "bad" then Except.error "Expecting value: line 1 column 1 (char 0)"
  else if r = "noblocks" then Except.ok (Json.obj [])
  else Except.ok (Json.obj [("blocks", Json.arr [])])

/-- Claim C1 amended witness: concrete runs hitting the three malformed
shapes, with the stated non-502 outcomes. -/
theorem c1_witness :
    PLAN_CONFIG "Pro" = some proConfig ∧
    statusEndpoint "Pro" (.ok ((0 : ℤ), "2")) (.ok ((0 : ℤ), "bad")) wLoads
        (fun _ => Except.ok 0) 0 =
      HttpResult.clientError "Expecting value: line 1 column 1 (char 0)" ∧
    statusEndpoint "Pro" (.ok ((0 : ℤ), "2")) (.ok ((0 : ℤ), "noblocks")) wLoads
        (fun _ => Except.ok 0) 0 =
      HttpResult.unhandled (PyExc.keyError "blocks") ∧
    statusEndpoint "Pro" (.ok ((0 : ℤ), "2")) (.ok ((0 : ℤ), "ok")) wLoads
        (fun _ => Except.ok 0) 0 =
      HttpResult.unhandled (PyExc.indexError "list index out of range") := by
  have H := c1_amended_malformed_handling "Pro" proConfig rfl (.ok ((0 : ℤ), "2")) wLoads
    (fun _ => Except.ok 0) 0 "bad" "noblocks" "ok"
    "Expecting value: line 1 column 1 (char 0)" [] [("blocks", Json.arr [])]
    rfl rfl rfl rfl rfl
  exact ⟨rfl, H.1, H.2.2.1, H.2.2.2⟩

end Ccusage
